import Mathlib

/-!
Verification of `train_lora.py` (Finetune-SVD): a LoRA fine-tuning script for
Stable Video Diffusion.  We shallowly embed the pure/orchestration parts of the
script: the EDM preconditioning formulas, the dual-pass loss construction, the
noisy-input construction, parameter freezing and optimizer construction, the
`save_pipe` dtype round-trip, the checkpoint/validation schedule, the `is_attn`
predicate (with Python `or` semantics), and the `_gaussian` kernel.
Tensors are modelled as lists of reals (flattened) or as index functions;
machine floats are modelled as exact reals.
-/

namespace SVD

/-! ### Python truthiness and `is_attn` (train_lora.py lines 219-220)

`is_attn` is `('attn1' or 'attn2' == name.split('.')[-1])`.  In Python, `==`
binds tighter than `or`, and `a or b` evaluates to `a` when `a` is truthy.
We embed Python values as strings or booleans with Python truthiness. -/

inductive PyVal where
  | str (s : String)
  | bool (b : Bool)
deriving DecidableEq, Repr

/-- Python truthiness: a string is truthy iff non-empty; a bool is itself. -/
def truthy : PyVal → Bool
  | .str s => !(s == "")
  | .bool b => b

/-- Python `a or b`: returns `a` if `a` is truthy, else `b`. -/
def pyOr (a b : PyVal) : PyVal := if truthy a then a else b

/-- Python `name.split('.')[-1]`: the last dot-separated component. -/
def lastComponent (name : String) : String := (name.splitOn ".").getLastD ""

/-- train_lora.py line 220: `return ('attn1' or 'attn2' == name.split('.')[-1])`. -/
def is_attn (name : String) : PyVal :=
  pyOr (.str "attn1") (.bool ("attn2" == lastComponent name))

/-! ### `should_sample` (train_lora.py lines 353-355) -/

/-- Configuration record for `validation_data`; only `sample_preview` is read
by `should_sample`. -/
structure ValidationData where
  samplePreview : Bool
deriving DecidableEq, Repr

/-- train_lora.py lines 353-355:
`(global_step % validation_steps == 0 or global_step == 1) and validation_data.sample_preview`. -/
def should_sample (globalStep validationSteps : ℕ) (validationData : ValidationData) : Bool :=
  (globalStep % validationSteps == 0 || globalStep == 1) && validationData.samplePreview

/-! ### Checkpoint/validation schedule (train_lora.py lines 357-373, 710-933)

We model the observable save/sample events of the training loop as run by the
main process with `gradient_accumulation_steps = 1` (every loop iteration is a
synchronized optimizer step) and no checkpoint resume, so `global_step` runs
`1, 2, ..., max_train_steps`. -/

/-- An observable event of the training loop: a `save_pipe` call (with its
`is_checkpoint` flag, destination path and `global_step`) or a validation
sample generation. -/
inductive TrainEvent where
  | save (isCheckpoint : Bool) (path : String) (step : ℕ)
  | sample (step : ℕ)
deriving DecidableEq, Repr

/-- save_pipe lines 369-373: checkpoints go to the `checkpoint-{global_step}`
subdirectory of the output directory, a final save goes to the output
directory itself. -/
def savePath (outputDir : String) (isCheckpoint : Bool) (globalStep : ℕ) : String :=
  if isCheckpoint then outputDir ++ "/checkpoint-" ++ toString globalStep else outputDir

/-- Lines 859-911: the events of one synchronized optimizer step, after
`global_step` has been incremented to `gs`: a checkpoint save when
`gs % checkpointing_steps == 0`, then a validation sample when
`should_sample` holds. -/
def syncStepEvents (gs checkpointingSteps validationSteps : ℕ)
    (vd : ValidationData) (outputDir : String) : List TrainEvent :=
  (if gs % checkpointingSteps == 0
    then [.save true (savePath outputDir true gs) gs] else [])
  ++ (if should_sample gs validationSteps vd then [.sample gs] else [])

/-- Lines 710-918: the events emitted inside the training loop, over
synchronized steps `global_step = 1, ..., maxSteps`. -/
def loopEvents (maxSteps checkpointingSteps validationSteps : ℕ)
    (vd : ValidationData) (outputDir : String) : List TrainEvent :=
  ((List.range maxSteps).map
    (fun i => syncStepEvents (i + 1) checkpointingSteps validationSteps vd outputDir)).flatten

/-- Lines 710-933: the whole training run: the loop, then (lines 920-933) one
final `save_pipe` with `is_checkpoint=False` into the output directory. -/
def trainingRun (maxSteps checkpointingSteps validationSteps : ℕ)
    (vd : ValidationData) (outputDir : String) : List TrainEvent :=
  loopEvents maxSteps checkpointingSteps validationSteps vd outputDir
  ++ [.save false (savePath outputDir false maxSteps) maxSteps]

/-! ### EDM preconditioning (train_lora.py lines 659-660, 803-809) -/

/-- Line 659: `P_mean=0.7`. -/
def P_mean : ℝ := 0.7

/-- Line 660: `P_std=1.6`. -/
def P_std : ℝ := 1.6

/-- The five per-step EDM quantities computed at lines 805-809. -/
structure EDMCoeffs where
  cSkip : ℝ
  cOut : ℝ
  cIn : ℝ
  cNoise : ℝ
  lossWeight : ℝ

/-- Lines 803-809: given the standard-normal draw `rnd_normal`, the training
step computes `sigma = (rnd_normal * P_std + P_mean).exp()` and the EDM
coefficients from it.  Python `** 0.5` on the positive real `sigma**2 + 1` is
its square root. -/
noncomputable def trainStepCoeffs (rndNormal : ℝ) : EDMCoeffs :=
  let sigma := Real.exp (rndNormal * P_std + P_mean)
  { cSkip := 1 / (sigma ^ 2 + 1)
    cOut := -sigma / Real.sqrt (sigma ^ 2 + 1)
    cIn := 1 / Real.sqrt (sigma ^ 2 + 1)
    cNoise := Real.log sigma / 4
    lossWeight := (sigma ^ 2 + 1) / sigma ^ 2 }

/-- The noise level as the spec's claim words it: `sigma = exp(n * P_std + P_mean)`
with `n` the standard-normal draw, `P_mean = 0.7` and `P_std = 1.6`. -/
noncomputable def specSigma (n : ℝ) : ℝ := Real.exp (n * 1.6 + 0.7)

/-- The EDM coefficients as functions of the noise level `sigma`, as the spec's
claim words them: `c_skip = 1/(sigma^2+1)`, `c_out = -sigma/(sigma^2+1)^0.5`,
`c_in = 1/(sigma^2+1)^0.5`, `c_noise = log(sigma)/4`, and loss weight
`(sigma^2+1)/sigma^2`. -/
noncomputable def specEDMCoeffs (sigma : ℝ) : EDMCoeffs :=
  { cSkip := 1 / (sigma ^ 2 + 1)
    cOut := -sigma / Real.sqrt (sigma ^ 2 + 1)
    cIn := 1 / Real.sqrt (sigma ^ 2 + 1)
    cNoise := Real.log sigma / 4
    lossWeight := (sigma ^ 2 + 1) / sigma ^ 2 }

/-! ### The `_gaussian` kernel (train_lora.py lines 145-158), one batch row -/

/-- Lines 151-154: `x = arange(window_size) - window_size // 2`, shifted by
`0.5` when `window_size` is even. -/
def gaussianX (windowSize : ℕ) (i : ℕ) : ℝ :=
  ((i : ℝ) - (windowSize / 2 : ℕ)) + (if windowSize % 2 == 0 then 0.5 else 0)

/-- Line 156: `gauss = exp(-x**2 / (2 * sigma**2))`, entry `i` of one batch
row with scalar noise level `sigma`. -/
noncomputable def gaussUnnormalized (windowSize : ℕ) (sigma : ℝ) (i : ℕ) : ℝ :=
  Real.exp (-(gaussianX windowSize i) ^ 2 / (2 * sigma ^ 2))

/-- Line 158: `gauss / gauss.sum(-1, keepdim=True)`, entry `i` of the returned
kernel row. -/
noncomputable def gaussianKernel (windowSize : ℕ) (sigma : ℝ) (i : ℕ) : ℝ :=
  gaussUnnormalized windowSize sigma i
    / ∑ j ∈ Finset.range windowSize, gaussUnnormalized windowSize sigma j

/-! ### `save_pipe` dtype round-trip (train_lora.py lines 357-406)

We track the dtypes of the three shared model objects and the list of saved
pipelines.  `unet.cpu()` / `image_encoder.cpu()` move devices but not dtypes,
and the pipeline is built from deep copies of unet and image_encoder but from
the original vae object, so the pipeline's `.to(torch_dtype=float32)` at line
390 mutates only the shared vae's dtype. -/

/-- A torch dtype, as far as this script observes it. -/
inductive Dtype where
  | fp16
  | fp32
  | bf16
deriving DecidableEq, Repr

/-- A `pipeline.save_pretrained(save_path)` call: where it saved, the dtype
the pipeline was cast to, and the `global_step` at save time. -/
structure PipelineSave where
  path : String
  pipelineDtype : Dtype
  step : ℕ
deriving DecidableEq, Repr

/-- The dtype state of the three shared models plus the save log. -/
structure PipeState where
  unetDtype : Dtype
  imageEncoderDtype : Dtype
  vaeDtype : Dtype
  saved : List PipelineSave
deriving DecidableEq, Repr

/-- Lines 357-406: `save_pipe`.  Line 376 records the entry dtypes; lines
379-390 build the pipeline from deep copies of unet and image_encoder and the
original vae, and cast it (hence the shared vae) to float32; line 393 saves
when `save_pretrained_model`; lines 395-398 cast unet, image_encoder and vae
back to the recorded dtypes when `is_checkpoint`. -/
def save_pipe (isCheckpoint savePretrainedModel : Bool) (globalStep : ℕ)
    (outputDir : String) (s : PipeState) : PipeState :=
  let path := savePath outputDir isCheckpoint globalStep
  let uDtype := s.unetDtype
  let tDtype := s.imageEncoderDtype
  let vDtype := s.vaeDtype
  let s1 : PipeState := { s with vaeDtype := .fp32 }
  let s2 : PipeState :=
    if savePretrainedModel
      then { s1 with saved := s1.saved ++ [⟨path, .fp32, globalStep⟩] }
      else s1
  if isCheckpoint then
    { s2 with unetDtype := uDtype, imageEncoderDtype := tDtype, vaeDtype := vDtype }
  else s2

/-! ### Dual-pass training loss (train_lora.py lines 797, 819-833)

Tensors entering the loss are modelled flattened, as lists of real entries;
the per-step scalars `c_out`, `c_skip`, `loss_weight` (shape `[bsz,1,1,1,1]`
broadcast, with `bsz = 1` here) enter as reals. -/

/-- Line 797: `negative_image_embeddings = torch.zeros_like(image_embeddings)`. -/
def zeros_like (e : List ℝ) : List ℝ := e.map (fun _ => 0)

/-- Torch `.mean()`: the mean of all entries. -/
noncomputable def meanT (t : List ℝ) : ℝ := t.sum / t.length

/-- Line 828: `predict_x0 = c_out * model_pred + c_skip * noisy_latents`,
elementwise with the scalars broadcast. -/
noncomputable def predict_x0 (cOut cSkip : ℝ) (modelPred noisyLatents : List ℝ) : List ℝ :=
  List.zipWith (fun p n => cOut * p + cSkip * n) modelPred noisyLatents

/-- Line 830: `loss = ((predict_x0 - latents)**2 * loss_weight).mean()` for one
pass with denoiser output `modelPred`. -/
noncomputable def passLoss (cOut cSkip lossWeight : ℝ) (modelPred noisyLatents latents : List ℝ) : ℝ :=
  meanT (List.zipWith (fun x l => (x - l) ^ 2 * lossWeight)
    (predict_x0 cOut cSkip modelPred noisyLatents) latents)

/-- Lines 819-831: the two-pass loop.  `unet` abstracts the denoiser call
`unet(input_latents, c_noise, encoder_hidden_states, added_time_ids).sample`;
pass `i = 0` conditions on the zero embeddings of line 797, pass `i = 1` on
the image embeddings. -/
noncomputable def lossesLoop (unet : List ℝ → ℝ → List ℝ → List ℝ → List ℝ)
    (inputLatents noisyLatents latents imageEmbeddings addedTimeIds : List ℝ)
    (cNoise cOut cSkip lossWeight : ℝ) : List ℝ :=
  (List.range 2).map (fun i =>
    let encoderHiddenStates := if i == 0 then zeros_like imageEmbeddings else imageEmbeddings
    passLoss cOut cSkip lossWeight
      (unet inputLatents cNoise encoderHiddenStates addedTimeIds) noisyLatents latents)

/-- Line 833: `loss = losses[0] if len(losses) == 1 else losses[0] + losses[1]`. -/
noncomputable def stepTotalLoss (unet : List ℝ → ℝ → List ℝ → List ℝ → List ℝ)
    (inputLatents noisyLatents latents imageEmbeddings addedTimeIds : List ℝ)
    (cNoise cOut cSkip lossWeight : ℝ) : ℝ :=
  let losses := lossesLoop unet inputLatents noisyLatents latents imageEmbeddings
    addedTimeIds cNoise cOut cSkip lossWeight
  if losses.length == 1 then losses.getD 0 0 else losses.getD 0 0 + losses.getD 1 0

/-- Pointwise three-list zip, used to state the claim's loss formula directly. -/
def zipWith3R (f : ℝ → ℝ → ℝ → ℝ) : List ℝ → List ℝ → List ℝ → List ℝ
  | a :: as, b :: bs, c :: cs => f a b c :: zipWith3R f as bs cs
  | _, _, _ => []

/-- The claim's per-pass loss, stated in one formula:
`mean((c_out * pred + c_skip * noisy_latents - latents)^2 * loss_weight)`. -/
noncomputable def specPassLoss (cOut cSkip lossWeight : ℝ) (pred noisyLatents latents : List ℝ) : ℝ :=
  meanT (zipWith3R (fun p n l => (cOut * p + cSkip * n - l) ^ 2 * lossWeight)
    pred noisyLatents latents)

/-! ### Noisy-input construction (train_lora.py lines 746-755, 811-814)

Five-dimensional tensors `[b, f, c, h, w]` and four-dimensional tensors
`[b, c, h, w]` are modelled as index functions into the reals. -/

/-- A `[b, c, h, w]` tensor as an index function. -/
abbrev Tensor4 := ℕ → ℕ → ℕ → ℕ → ℝ

/-- A `[b, f, c, h, w]` tensor as an index function. -/
abbrev Tensor5 := ℕ → ℕ → ℕ → ℕ → ℕ → ℝ

/-- Lines 657/661: `noise_aug_strength = 0.02`. -/
def noise_aug_strength : ℝ := 0.02

/-- Line 748: `image = image + noise_aug_strength * noise`, on the
preprocessed conditioning image with the sampled noise tensor. -/
def augmentedImage (image noise : Tensor4) : Tensor4 :=
  fun b c h w => image b c h w + noise_aug_strength * noise b c h w

/-- Line 755: `repeat(image_latents, 'b c h w->b f c h w', f=num_frames)`:
every frame index reads the same per-frame latent. -/
def repeatFrames (t : Tensor4) : Tensor5 := fun b _f c h w => t b c h w

/-- Lines 746-755: the conditioning-image latents.  `vaeMode` abstracts the
external `vae.encode(·).latent_dist.mode()`. -/
def imageLatents (vaeMode : Tensor4 → Tensor4) (image noise : Tensor4) : Tensor5 :=
  repeatFrames (vaeMode (augmentedImage image noise))

/-- Line 811: `noisy_latents = latents + torch.randn_like(latents) * sigma`;
`sigma` has shape `[bsz,1,1,1,1]`, broadcasting per batch row. -/
def noisyLatents5 (latents eps : Tensor5) (sigmaB : ℕ → ℝ) : Tensor5 :=
  fun b f c h w => latents b f c h w + eps b f c h w * sigmaB b

/-- Line 812: `input_latents = c_in * noisy_latents`, `c_in` broadcast per
batch row. -/
def scaledNoisyLatents (latents eps : Tensor5) (sigmaB cInB : ℕ → ℝ) : Tensor5 :=
  fun b f c h w => cInB b * noisyLatents5 latents eps sigmaB b f c h w

/-- Line 814: `torch.cat([., .], dim=2)`: channel indices below the first
tensor's channel count read it, the rest read the second tensor shifted. -/
def catChannels (numChannels : ℕ) (t u : Tensor5) : Tensor5 :=
  fun b f c h w => if c < numChannels then t b f c h w else u b f (c - numChannels) h w

/-- Lines 811-814: the tensor fed to the denoiser, with `numChannels` the
latents' channel count. -/
def inputLatentsT (numChannels : ℕ) (latents eps : Tensor5) (sigmaB cInB : ℕ → ℝ)
    (vaeMode : Tensor4 → Tensor4) (image noise : Tensor4) : Tensor5 :=
  catChannels numChannels (scaledNoisyLatents latents eps sigmaB cInB)
    (imageLatents vaeMode image noise)

/-! ### Parameters, freezing, adapter injection and the optimizer
(train_lora.py lines 215-217, 555-613)

A network is a list of leaf modules, each holding named parameters with their
`requires_grad` flag.  `isLora` marks parameters created by the adapter
library; `value` stands for the tensor contents, abstracted to an integer. -/

/-- A named parameter with its `requires_grad` flag, adapter marker, and
abstracted contents. -/
structure Param where
  name : String
  requiresGrad : Bool
  isLora : Bool
  value : ℤ
deriving DecidableEq, Repr

/-- A leaf module: a name and its parameters. -/
structure NNModule where
  name : String
  params : List Param
deriving DecidableEq, Repr

/-- A network as its list of leaf modules. -/
abbrev Network := List NNModule

/-- A `module.requires_grad_(False)` call on one module. -/
def freezeModule (m : NNModule) : NNModule :=
  { m with params := m.params.map (fun p => { p with requiresGrad := false }) }

/-- Lines 215-217: `freeze_models` calls `requires_grad_(False)` on a model:
every parameter of every module is frozen. -/
def freeze_models (net : Network) : Network := net.map freezeModule

/-- Line 594: `UNET_TARGET_MODULES = ["to_q", "to_v", "query", "value"]`. -/
def UNET_TARGET_MODULES : List String := ["to_q", "to_v", "query", "value"]

/-- Modelled from the spec: the adapter injection of the external `peft`
library (its `get_peft_model`, applied at line 604) is not part of this
repository.  Per the spec it "wraps the denoiser's attention projections with
trainable low-rank adapters; freezes all other parameters": a module whose
last name component is one of `target_modules` receives fresh trainable
`lora_A`/`lora_B` parameters, any other module receives none. -/
def loraParamsFor (targetModules : List String) (m : NNModule) : List Param :=
  if targetModules.contains (lastComponent m.name) then
    [⟨m.name ++ ".lora_A.default.weight", true, true, 0⟩,
     ⟨m.name ++ ".lora_B.default.weight", true, true, 0⟩]
  else []

/-- The adapter parameters a module receives, appended to its own. -/
def injectLora (targetModules : List String) (m : NNModule) : NNModule :=
  { m with params := m.params ++ loraParamsFor targetModules m }

/-- Modelled from the spec: `get_peft_model(unet, config)` (line 604) freezes
every pre-existing parameter and injects trainable adapters into the modules
targeted by `config.target_modules`. -/
def get_peft_model (net : Network) (targetModules : List String) : Network :=
  net.map (fun m => injectLora targetModules (freezeModule m))

/-- `model.parameters()`: every parameter of every module, in order. -/
def parameters (net : Network) : List Param := (net.map NNModule.params).flatten

/-- Lines 607-613: `optimizer_cls(unet.parameters(), ...)`: the parameter list
handed to the optimizer is the whole parameter list of the adapter-wrapped
denoiser. -/
def optimizerParams (peftUnet : Network) : List Param := parameters peftUnet

/-- A one-module denoiser holding a single base (non-adapter) parameter, on an
attention query projection. -/
def exampleUNet : Network :=
  [⟨"down_blocks.0.attentions.0.to_q",
    [⟨"down_blocks.0.attentions.0.to_q.weight", true, false, 0⟩]⟩]

/-- The three models whose parameter flags training manipulates. -/
structure TrainState where
  vae : Network
  imageEncoder : Network
  unet : Network
deriving DecidableEq, Repr

/-- Lines 555-605: load the models, `freeze_models([vae, image_encoder, unet])`
(line 558), then wrap the unet with the adapter library (line 604). -/
def setupModels (vae imageEncoder unet : Network) : TrainState :=
  { vae := freeze_models vae
    imageEncoder := freeze_models imageEncoder
    unet := get_peft_model (freeze_models unet) UNET_TARGET_MODULES }

/-- Modelled from the spec: one training step (lines 713-918) updates
parameter values through backpropagation and the optimizer, which touch only
parameters that require gradients; no statement of the loop mutates a
`requires_grad` flag.  `upd` abstracts the numeric update. -/
def trainStep (upd : String → ℤ → ℤ) (s : TrainState) : TrainState :=
  { s with unet := s.unet.map (fun m =>
      { m with params := m.params.map (fun p =>
          if p.requiresGrad then { p with value := upd p.name p.value } else p) }) }

end SVD

namespace SVD

theorem lossEntries_eq_zipWith3R (cOut cSkip lossWeight : ℝ) :
    ∀ p n l : List ℝ,
      List.zipWith (fun x l0 => (x - l0) ^ 2 * lossWeight)
          (predict_x0 cOut cSkip p n) l
        = zipWith3R (fun a b c => (cOut * a + cSkip * b - c) ^ 2 * lossWeight) p n l := by
  intro p
  induction p with
  | nil => intro n l; cases n <;> cases l <;> rfl
  | cons a as ih =>
    intro n l
    cases n with
    | nil => cases l <;> rfl
    | cons b bs =>
      cases l with
      | nil => rfl
      | cons c cs =>
        simp only [predict_x0, List.zipWith, zipWith3R] at *
        exact congrArg _ (ih bs cs)

theorem passLoss_eq_specPassLoss (cOut cSkip lossWeight : ℝ) (p n l : List ℝ) :
    passLoss cOut cSkip lossWeight p n l = specPassLoss cOut cSkip lossWeight p n l := by
  simp only [passLoss, specPassLoss, lossEntries_eq_zipWith3R]

theorem mem_parameters {p : Param} {net : Network} :
    p ∈ parameters net ↔ ∃ m ∈ net, p ∈ m.params := by
  simp [parameters, List.mem_flatten]

theorem parameters_cons (m : NNModule) (net : Network) :
    parameters (m :: net) = m.params ++ parameters net := by
  simp [parameters]

theorem all_parameters (g : Param → Bool) (net : Network) :
    (parameters net).all g = net.all (fun m => m.params.all g) := by
  induction net with
  | nil => rfl
  | cons m rest ih => simp [parameters_cons, List.all_append, ih]

theorem injectLora_name (t : List String) (m : NNModule) :
    (injectLora t m).name = m.name := rfl

theorem mem_injectLora {p : Param} {t : List String} {m : NNModule} :
    p ∈ (injectLora t m).params ↔ p ∈ m.params ∨ p ∈ loraParamsFor t m := by
  simp [injectLora]

theorem loraParamsFor_cases {p : Param} {t : List String} {m : NNModule}
    (h : p ∈ loraParamsFor t m) :
    p.requiresGrad = true ∧ p.isLora = true
      ∧ t.contains (lastComponent m.name) = true := by
  simp only [loraParamsFor] at h
  split at h
  case isTrue hc =>
    simp only [List.mem_cons, List.mem_singleton, List.not_mem_nil, or_false] at h
    rcases h with rfl | rfl
    · exact ⟨rfl, rfl, hc⟩
    · exact ⟨rfl, rfl, hc⟩
  case isFalse hc => simp at h

theorem peft_param_cases {p : Param} {net : Network} {targets : List String}
    (hp : p ∈ parameters (get_peft_model net targets)) :
    (∃ q ∈ parameters net, p = { q with requiresGrad := false })
    ∨ (p.requiresGrad = true ∧ p.isLora = true) := by
  rw [mem_parameters] at hp
  obtain ⟨m, hm, hpm⟩ := hp
  rw [get_peft_model, List.mem_map] at hm
  obtain ⟨m0, hm0, rfl⟩ := hm
  rw [mem_injectLora] at hpm
  rcases hpm with hpm | hpm
  · simp only [freezeModule, List.mem_map] at hpm
    obtain ⟨q, hq, rfl⟩ := hpm
    exact Or.inl ⟨q, mem_parameters.mpr ⟨m0, hm0, hq⟩, rfl⟩
  · obtain ⟨h1, h2, -⟩ := loraParamsFor_cases hpm
    exact Or.inr ⟨h1, h2⟩

theorem peft_rg_iff_lora {net : Network} {targets : List String}
    (hbase : ((parameters net).all (fun p => !p.isLora)) = true) :
    ((parameters (get_peft_model net targets)).all
      (fun p => p.requiresGrad == p.isLora)) = true := by
  rw [List.all_eq_true]
  intro p hp
  rcases peft_param_cases hp with ⟨q, hq, rfl⟩ | ⟨h1, h2⟩
  · have hql : q.isLora = false := by
      simpa using List.all_eq_true.mp hbase q hq
    simp [hql]
  · simp [h1, h2]

theorem peft_lora_on_targets {net : Network} {targets : List String}
    (hbase : ((parameters net).all (fun p => !p.isLora)) = true) :
    ((get_peft_model net targets).all (fun m => m.params.all (fun p =>
        !p.isLora || targets.contains (lastComponent m.name)))) = true := by
  rw [List.all_eq_true]
  intro m hm
  rw [get_peft_model, List.mem_map] at hm
  obtain ⟨m0, hm0, rfl⟩ := hm
  rw [List.all_eq_true]
  intro p hp
  rw [mem_injectLora] at hp
  rcases hp with hp | hp
  · simp only [freezeModule, List.mem_map] at hp
    obtain ⟨q, hq, rfl⟩ := hp
    have hql : q.isLora = false := by
      simpa using List.all_eq_true.mp hbase q (mem_parameters.mpr ⟨m0, hm0, hq⟩)
    simp [hql]
  · obtain ⟨-, h2, h3⟩ := loraParamsFor_cases hp
    have h3' : lastComponent (freezeModule m0).name ∈ targets := List.elem_iff.mp h3
    simp only [injectLora_name]
    simp [h2, h3']

theorem freeze_all_frozen (net : Network) :
    ((parameters (freeze_models net)).all (fun p => !p.requiresGrad)) = true := by
  rw [List.all_eq_true]
  intro p hp
  rw [mem_parameters] at hp
  obtain ⟨m, hm, hpm⟩ := hp
  rw [freeze_models, List.mem_map] at hm
  obtain ⟨m0, hm0, rfl⟩ := hm
  simp only [freezeModule, List.mem_map] at hpm
  obtain ⟨q, hq, rfl⟩ := hpm
  simp

theorem freeze_isLora_free (net : Network)
    (hbase : ((parameters net).all (fun p => !p.isLora)) = true) :
    ((parameters (freeze_models net)).all (fun p => !p.isLora)) = true := by
  rw [List.all_eq_true]
  intro p hp
  rw [mem_parameters] at hp
  obtain ⟨m, hm, hpm⟩ := hp
  rw [freeze_models, List.mem_map] at hm
  obtain ⟨m0, hm0, rfl⟩ := hm
  simp only [freezeModule, List.mem_map] at hpm
  obtain ⟨q, hq, rfl⟩ := hpm
  rw [List.all_eq_true] at hbase
  exact hbase q (mem_parameters.mpr ⟨m0, hm0, hq⟩)

theorem trainStep_unet_all (upd : String → ℤ → ℤ) (net : Network)
    (f : String → Param → Bool)
    (hf : ∀ (n : String) (p : Param) (v : ℤ), f n { p with value := v } = f n p) :
    ((net.map (fun (m : NNModule) => { m with params := m.params.map (fun (p : Param) =>
          if p.requiresGrad then { p with value := upd p.name p.value } else p) })).all
        (fun m => m.params.all (f m.name)))
      = net.all (fun m => m.params.all (f m.name)) := by
  induction net with
  | nil => rfl
  | cons m rest ih =>
    simp only [List.map_cons, List.all_cons, ih]
    have hmp : ∀ ps : List Param,
        ((ps.map (fun (p : Param) => if p.requiresGrad then { p with value := upd p.name p.value }
            else p)).all (f m.name))
          = ps.all (f m.name) := by
      intro ps
      induction ps with
      | nil => rfl
      | cons p pr ihp =>
        simp only [List.map_cons, List.all_cons, ihp]
        by_cases hrg : p.requiresGrad
        · rw [if_pos hrg, hf]
        · rw [if_neg hrg]
    rw [hmp]

theorem trainStep_unet (upd : String → ℤ → ℤ) (s : TrainState) :
    (trainStep upd s).unet
      = s.unet.map (fun (m : NNModule) => { m with params := m.params.map (fun (p : Param) =>
          if p.requiresGrad then { p with value := upd p.name p.value } else p) }) := rfl

theorem trainStep_vae (upd : String → ℤ → ℤ) (s : TrainState) :
    (trainStep upd s).vae = s.vae := rfl

theorem trainStep_imageEncoder (upd : String → ℤ → ℤ) (s : TrainState) :
    (trainStep upd s).imageEncoder = s.imageEncoder := rfl

theorem mem_loopEvents {e : TrainEvent} {maxSteps cps vs : ℕ} {vd : ValidationData}
    {dir : String} :
    e ∈ loopEvents maxSteps cps vs vd dir
      ↔ ∃ i, i < maxSteps ∧ e ∈ syncStepEvents (i + 1) cps vs vd dir := by
  simp [loopEvents, List.mem_flatten]

theorem sample_mem_syncStepEvents {s gs cps vs : ℕ} {vd : ValidationData} {dir : String} :
    TrainEvent.sample s ∈ syncStepEvents gs cps vs vd dir
      ↔ should_sample gs vs vd = true ∧ s = gs := by
  by_cases hc : gs % cps == 0 <;> by_cases hs : should_sample gs vs vd <;>
    simp [syncStepEvents, hc, hs]

theorem save_mem_syncStepEvents {b : Bool} {p : String} {s gs cps vs : ℕ}
    {vd : ValidationData} {dir : String} :
    TrainEvent.save b p s ∈ syncStepEvents gs cps vs vd dir
      ↔ gs % cps = 0 ∧ b = true ∧ p = savePath dir true gs ∧ s = gs := by
  by_cases hc : gs % cps == 0 <;> by_cases hs : should_sample gs vs vd <;>
    simp_all [syncStepEvents]

theorem mod_eq_zero_iff_dvd_nat (a d : ℕ) : a % d = 0 ↔ d ∣ a :=
  Nat.dvd_iff_mod_eq_zero.symm

end SVD

/-! ## Theorems -/

/-- C7: `should_sample global_step validation_steps validation_data` holds iff
`sample_preview` is set and `global_step` is divisible by `validation_steps` or
equals 1; in the training run, a validation sample is generated exactly at the
synchronized optimizer steps where this predicate holds. -/
theorem should_sample_spec (gs vs maxSteps cps : ℕ) (vd : SVD.ValidationData) (dir : String) :
    (SVD.should_sample gs vs vd = true
        ↔ vd.samplePreview = true ∧ (vs ∣ gs ∨ gs = 1))
    ∧ (SVD.TrainEvent.sample gs ∈ SVD.trainingRun maxSteps cps vs vd dir
        ↔ 1 ≤ gs ∧ gs ≤ maxSteps ∧ SVD.should_sample gs vs vd = true) := by
  constructor
  · simp only [SVD.should_sample, Bool.and_eq_true, Bool.or_eq_true, beq_iff_eq,
      SVD.mod_eq_zero_iff_dvd_nat]
    tauto
  · rw [SVD.trainingRun]
    simp only [List.mem_append, SVD.mem_loopEvents, SVD.sample_mem_syncStepEvents,
      List.mem_singleton, reduceCtorEq, or_false]
    constructor
    · rintro ⟨i, hi, hs, rfl⟩
      exact ⟨Nat.succ_le_succ (Nat.zero_le i), hi, hs⟩
    · rintro ⟨h1, h2, hs⟩
      cases gs with
      | zero => omega
      | succ k => exact ⟨k, by omega, hs, rfl⟩

/-- C8: in the training run, a checkpoint save of the full pipeline into the
`checkpoint-{global_step}` subdirectory happens exactly at the synchronized
optimizer steps whose `global_step` is a positive multiple of
`checkpointing_steps`; no non-checkpoint save happens inside the loop; and the
run ends with exactly one non-checkpoint save into the output directory. -/
theorem checkpoint_schedule (maxSteps cps vs : ℕ) (vd : SVD.ValidationData) (dir : String) :
    (∀ p s, SVD.TrainEvent.save true p s ∈ SVD.trainingRun maxSteps cps vs vd dir
        ↔ 1 ≤ s ∧ s ≤ maxSteps ∧ cps ∣ s ∧ p = dir ++ "/checkpoint-" ++ toString s)
    ∧ (∀ p s, SVD.TrainEvent.save false p s ∉ SVD.loopEvents maxSteps cps vs vd dir)
    ∧ SVD.trainingRun maxSteps cps vs vd dir
        = SVD.loopEvents maxSteps cps vs vd dir
          ++ [SVD.TrainEvent.save false dir maxSteps] := by
  refine ⟨fun p s => ?_, fun p s => ?_, ?_⟩
  · rw [SVD.trainingRun]
    simp only [List.mem_append, SVD.mem_loopEvents, SVD.save_mem_syncStepEvents,
      List.mem_singleton, SVD.TrainEvent.save.injEq, Bool.true_eq_false, false_and,
      or_false, SVD.savePath, if_true, true_and]
    constructor
    · rintro ⟨i, hi, hmod, rfl, rfl⟩
      exact ⟨Nat.succ_le_succ (Nat.zero_le i), hi,
        (SVD.mod_eq_zero_iff_dvd_nat _ _).mp hmod, rfl⟩
    · rintro ⟨h1, h2, hdvd, rfl⟩
      cases s with
      | zero => omega
      | succ k =>
        exact ⟨k, by omega, (SVD.mod_eq_zero_iff_dvd_nat _ _).mpr hdvd, rfl, rfl⟩
  · simp [SVD.mem_loopEvents, SVD.save_mem_syncStepEvents]
  · simp [SVD.trainingRun, SVD.savePath]

/-- C9: for every module name, `is_attn` returns the truthy string `'attn1'`:
the comparison of `'attn2'` against the name's last dotted component never
affects the result, so `is_attn` holds for every module name. -/
theorem is_attn_always_truthy (name : String) :
    SVD.is_attn name = SVD.PyVal.str "attn1" ∧ SVD.truthy (SVD.is_attn name) = true := by
  constructor <;> simp [SVD.is_attn, SVD.pyOr, SVD.truthy]

/-- C1: in every training step, the EDM coefficients and loss weight computed
at lines 803-809 from the standard-normal draw `n` are exactly the spec's
formulas evaluated at `sigma = exp(n * P_std + P_mean)`, with `P_mean = 0.7`
and `P_std = 1.6`. -/
theorem trainStepCoeffs_eq_spec (n : ℝ) :
    SVD.trainStepCoeffs n = SVD.specEDMCoeffs (SVD.specSigma n)
      ∧ SVD.specSigma n = Real.exp (n * SVD.P_std + SVD.P_mean)
      ∧ SVD.P_mean = 0.7 ∧ SVD.P_std = 1.6 :=
  ⟨rfl, rfl, rfl, rfl⟩

/-- C6: a `save_pipe` call with `is_checkpoint=True` restores on exit the
dtypes the denoiser, image encoder and autoencoder had on entry, while every
pipeline it saves is cast to float32. -/
theorem save_pipe_checkpoint_dtype_roundtrip (sp : Bool) (gs : ℕ) (dir : String)
    (s : SVD.PipeState) :
    (SVD.save_pipe true sp gs dir s).unetDtype = s.unetDtype
    ∧ (SVD.save_pipe true sp gs dir s).imageEncoderDtype = s.imageEncoderDtype
    ∧ (SVD.save_pipe true sp gs dir s).vaeDtype = s.vaeDtype
    ∧ (SVD.save_pipe true sp gs dir s).saved
        = s.saved
          ++ (if sp then [⟨SVD.savePath dir true gs, SVD.Dtype.fp32, gs⟩] else []) := by
  cases sp <;> simp [SVD.save_pipe]

/-- C10: for every window size at least 1 and positive sigma, the kernel row
returned by `_gaussian` sums to 1. -/
theorem gaussian_kernel_normalized (w : ℕ) (sigma : ℝ) (hw : 1 ≤ w) (hs : 0 < sigma) :
    ∑ i ∈ Finset.range w, SVD.gaussianKernel w sigma i = 1 := by
  have hpos : 0 < ∑ j ∈ Finset.range w, SVD.gaussUnnormalized w sigma j := by
    apply Finset.sum_pos (fun j _ => Real.exp_pos _)
    rw [Finset.nonempty_range_iff]
    omega
  simp only [SVD.gaussianKernel]
  rw [← Finset.sum_div, div_self (ne_of_gt hpos)]

/-- Witness for C10 at `window_size = 1`, `sigma = 1`. -/
theorem gaussian_kernel_normalized_witness :
    1 ≤ 1 ∧ (0 : ℝ) < 1 ∧ ∑ i ∈ Finset.range 1, SVD.gaussianKernel 1 1 i = 1 :=
  ⟨by decide, one_pos, gaussian_kernel_normalized 1 1 (by decide) one_pos⟩

/-- C2: every training step runs exactly two denoiser passes on the same noisy
input: pass 0 with the all-zeros tensor of the image embeddings' shape, pass 1
with the image embeddings; each pass contributes
`mean((c_out * pred_i + c_skip * noisy_latents - latents)^2 * loss_weight)`,
and the step's total loss is the sum of the two. -/
theorem dual_pass_total_loss (unet : List ℝ → ℝ → List ℝ → List ℝ → List ℝ)
    (inputLatents noisyLatents latents imageEmbeddings addedTimeIds : List ℝ)
    (cNoise cOut cSkip lossWeight : ℝ) :
    SVD.stepTotalLoss unet inputLatents noisyLatents latents imageEmbeddings
        addedTimeIds cNoise cOut cSkip lossWeight
      = SVD.specPassLoss cOut cSkip lossWeight
          (unet inputLatents cNoise (List.replicate imageEmbeddings.length 0) addedTimeIds)
          noisyLatents latents
        + SVD.specPassLoss cOut cSkip lossWeight
          (unet inputLatents cNoise imageEmbeddings addedTimeIds)
          noisyLatents latents
    ∧ SVD.zeros_like imageEmbeddings = List.replicate imageEmbeddings.length 0 := by
  have hz : SVD.zeros_like imageEmbeddings = List.replicate imageEmbeddings.length 0 := by
    simp [SVD.zeros_like]
  refine ⟨?_, hz⟩
  have hr : List.range 2 = [0, 1] := rfl
  simp [SVD.stepTotalLoss, SVD.lossesLoop, hr, hz, SVD.passLoss_eq_specPassLoss]

/-- C3: the tensor fed to the denoiser is `c_in * (latents + eps * sigma)`
(per batch row) on the latents' channels, concatenated along the channel
dimension with the conditioning-image latents, which are the VAE posterior
mode of `image + noise_aug_strength * noise` (with `noise_aug_strength = 0.02`)
and are identical across all frame indices. -/
theorem input_latents_construction (numChannels : ℕ) (latents eps : SVD.Tensor5)
    (sigmaB cInB : ℕ → ℝ) (vaeMode : SVD.Tensor4 → SVD.Tensor4)
    (image noise : SVD.Tensor4) :
    (∀ b f c h w,
      SVD.inputLatentsT numChannels latents eps sigmaB cInB vaeMode image noise b f c h w
        = if c < numChannels
            then cInB b * (latents b f c h w + eps b f c h w * sigmaB b)
            else vaeMode
              (fun b0 c0 h0 w0 => image b0 c0 h0 w0 + 0.02 * noise b0 c0 h0 w0)
              b (c - numChannels) h w)
    ∧ (∀ b f f2 c h w,
      SVD.imageLatents vaeMode image noise b f c h w
        = SVD.imageLatents vaeMode image noise b f2 c h w) := by
  constructor
  · intro b f c h w
    rfl
  · intro b f f2 c h w
    rfl

/-- C4 counterexample: the claim "no base (non-adapter) parameter is among the
parameters handed to the optimizer" fails on a denoiser with one base
parameter: line 607 hands `unet.parameters()` — the whole parameter list of
the adapter-wrapped model — to the optimizer, so the (frozen) base parameter
is among them. -/
theorem optimizer_handed_base_param :
    (SVD.Param.mk "down_blocks.0.attentions.0.to_q.weight" false false 0)
      ∈ SVD.optimizerParams (SVD.get_peft_model SVD.exampleUNet SVD.UNET_TARGET_MODULES)
    ∧ (SVD.Param.mk "down_blocks.0.attentions.0.to_q.weight" false false 0).isLora = false := by
  constructor
  · left
  · rfl

/-- C4 amended: the optimizer is handed the whole parameter list of the
adapter-wrapped denoiser — every original base parameter is among them,
frozen and non-adapter — and exactly the adapter parameters among them are
trainable. -/
theorem optimizer_params_all_wrapped (net : SVD.Network) (targets : List String)
    (hbase : ((SVD.parameters net).all (fun p => !p.isLora)) = true) :
    SVD.optimizerParams (SVD.get_peft_model net targets)
        = SVD.parameters (SVD.get_peft_model net targets)
    ∧ ((SVD.optimizerParams (SVD.get_peft_model net targets)).all
        (fun p => p.requiresGrad == p.isLora)) = true
    ∧ ((SVD.parameters net).all (fun p =>
        (SVD.optimizerParams (SVD.get_peft_model net targets)).any
          (fun q => q.name == p.name && !q.requiresGrad && !q.isLora))) = true := by
  refine ⟨rfl, SVD.peft_rg_iff_lora hbase, ?_⟩
  rw [List.all_eq_true]
  intro p hp
  rw [SVD.mem_parameters] at hp
  obtain ⟨m, hm, hpm⟩ := hp
  rw [List.any_eq_true]
  refine ⟨{ p with requiresGrad := false }, ?_, ?_⟩
  · rw [SVD.optimizerParams, SVD.mem_parameters]
    refine ⟨SVD.injectLora targets (SVD.freezeModule m), ?_, ?_⟩
    · rw [SVD.get_peft_model, List.mem_map]
      exact ⟨m, hm, rfl⟩
    · rw [SVD.mem_injectLora]
      left
      simp only [SVD.freezeModule, List.mem_map]
      exact ⟨p, hpm, rfl⟩
  · have hpl : p.isLora = false := by
      simpa using List.all_eq_true.mp hbase p (SVD.mem_parameters.mpr ⟨m, hm, hpm⟩)
    simp [hpl]

/-- Witness for the amended C4 at the one-parameter example denoiser. -/
theorem optimizer_params_all_wrapped_witness :
    (((SVD.parameters SVD.exampleUNet).all (fun p => !p.isLora)) = true)
    ∧ (SVD.optimizerParams (SVD.get_peft_model SVD.exampleUNet SVD.UNET_TARGET_MODULES)
          = SVD.parameters (SVD.get_peft_model SVD.exampleUNet SVD.UNET_TARGET_MODULES)
      ∧ ((SVD.optimizerParams (SVD.get_peft_model SVD.exampleUNet SVD.UNET_TARGET_MODULES)).all
          (fun p => p.requiresGrad == p.isLora)) = true
      ∧ ((SVD.parameters SVD.exampleUNet).all (fun p =>
          (SVD.optimizerParams (SVD.get_peft_model SVD.exampleUNet SVD.UNET_TARGET_MODULES)).any
            (fun q => q.name == p.name && !q.requiresGrad && !q.isLora))) = true) :=
  ⟨by decide,
    optimizer_params_all_wrapped SVD.exampleUNet SVD.UNET_TARGET_MODULES (by decide)⟩

/-- C5: after setup (freeze vae, image encoder and unet, then inject
adapters), and after any number of training steps, every vae and image-encoder
parameter is frozen, a unet parameter requires gradients exactly when it is an
injected adapter parameter, and adapter parameters sit only on the targeted
attention projection modules. -/
theorem frozen_partition_invariant (vae ie unet : SVD.Network)
    (upd : String → ℤ → ℤ) (k : ℕ)
    (hbase : ((SVD.parameters unet).all (fun p => !p.isLora)) = true) :
    ((SVD.parameters ((SVD.trainStep upd)^[k] (SVD.setupModels vae ie unet)).vae).all
        (fun p => !p.requiresGrad)) = true
    ∧ ((SVD.parameters
          ((SVD.trainStep upd)^[k] (SVD.setupModels vae ie unet)).imageEncoder).all
        (fun p => !p.requiresGrad)) = true
    ∧ ((SVD.parameters ((SVD.trainStep upd)^[k] (SVD.setupModels vae ie unet)).unet).all
        (fun p => p.requiresGrad == p.isLora)) = true
    ∧ (((SVD.trainStep upd)^[k] (SVD.setupModels vae ie unet)).unet.all
        (fun m => m.params.all (fun p =>
          !p.isLora || SVD.UNET_TARGET_MODULES.contains (SVD.lastComponent m.name)))) = true := by
  induction k with
  | zero =>
    refine ⟨SVD.freeze_all_frozen vae, SVD.freeze_all_frozen ie, ?_, ?_⟩
    · exact SVD.peft_rg_iff_lora (SVD.freeze_isLora_free unet hbase)
    · exact SVD.peft_lora_on_targets (SVD.freeze_isLora_free unet hbase)
  | succ k ih =>
    obtain ⟨h1, h2, h3, h4⟩ := ih
    simp only [Function.iterate_succ_apply']
    refine ⟨?_, ?_, ?_, ?_⟩
    · rw [SVD.trainStep_vae]
      exact h1
    · rw [SVD.trainStep_imageEncoder]
      exact h2
    · rw [SVD.all_parameters] at h3 ⊢
      have hstep := SVD.trainStep_unet_all upd
        ((SVD.trainStep upd)^[k] (SVD.setupModels vae ie unet)).unet
        (fun _ p => p.requiresGrad == p.isLora) (fun _ _ _ => rfl)
      exact hstep.trans h3
    · have hstep := SVD.trainStep_unet_all upd
        ((SVD.trainStep upd)^[k] (SVD.setupModels vae ie unet)).unet
        (fun n p => !p.isLora || SVD.UNET_TARGET_MODULES.contains (SVD.lastComponent n))
        (fun _ _ _ => rfl)
      exact hstep.trans h4

/-- Witness for C5 at the one-parameter example denoiser, one training step. -/
theorem frozen_partition_invariant_witness :
    (((SVD.parameters SVD.exampleUNet).all (fun p => !p.isLora)) = true)
    ∧ (((SVD.parameters
          ((SVD.trainStep (fun _ v => v))^[1]
            (SVD.setupModels [] [] SVD.exampleUNet)).vae).all
          (fun p => !p.requiresGrad)) = true
      ∧ ((SVD.parameters
          ((SVD.trainStep (fun _ v => v))^[1]
            (SVD.setupModels [] [] SVD.exampleUNet)).imageEncoder).all
          (fun p => !p.requiresGrad)) = true
      ∧ ((SVD.parameters
          ((SVD.trainStep (fun _ v => v))^[1]
            (SVD.setupModels [] [] SVD.exampleUNet)).unet).all
          (fun p => p.requiresGrad == p.isLora)) = true
      ∧ (((SVD.trainStep (fun _ v => v))^[1]
            (SVD.setupModels [] [] SVD.exampleUNet)).unet.all
          (fun m => m.params.all (fun p =>
            !p.isLora || SVD.UNET_TARGET_MODULES.contains (SVD.lastComponent m.name)))) = true) :=
  ⟨by decide,
    frozen_partition_invariant [] [] SVD.exampleUNet (fun _ v => v) 1 (by decide)⟩
